import Mathlib

/-!
Verification development for the cupid-api hotel synchronization service.

The Go source is shallowly embedded: Go structs become Lean structures,
Go `float64` becomes `GoFloat` (a rational carrying IEEE NaN/±Inf special
values, with subtraction/comparison/equality following IEEE semantics for
the operations the code performs), Go maps become association lists whose
key-uniqueness is carried as a hypothesis where a proof needs it, the
PostgreSQL tables touched by the sync path become lists of row structures,
and fallible operations take explicit failure oracles and return `Except`
or an `Option` error component.

Fields of `cupid.Property` that flow only into the opaque `property_details`
JSONB document (check-in block, photos, facilities, policies, rooms,
parking/group/allow flags) and are never read back nor compared by the
sync path are represented by keeping the whole embedded `Property` value
as the row payload of `property_details`.
-/

/-- An exact rational, as an integer numerator over a positive natural
denominator (not necessarily reduced; comparisons cross-multiply).  Used
as the value of a finite `float64` so that every operation reduces in the
kernel. -/
structure Frac where
  num : Int
  den : ℕ+
deriving DecidableEq

/-- The rational a `Frac` denotes. -/
def Frac.val (a : Frac) : ℚ := (a.num : ℚ) / (a.den : ℚ)

/-- Exact subtraction of the denoted values. -/
def Frac.fsub (a b : Frac) : Frac :=
  ⟨a.num * (b.den : ℤ) - b.num * (a.den : ℤ), a.den * b.den⟩

/-- Negation of the denoted value. -/
def Frac.fneg (a : Frac) : Frac := ⟨-a.num, a.den⟩

/-- `<` on the denoted values. -/
def Frac.blt (a b : Frac) : Bool := decide (a.num * (b.den : ℤ) < b.num * (a.den : ℤ))

/-- `=` on the denoted values. -/
def Frac.beq (a b : Frac) : Bool := decide (a.num * (b.den : ℤ) = b.num * (a.den : ℤ))

/-- The `Frac` denoting an integer. -/
def Frac.ofInt (n : Int) : Frac := ⟨n, 1⟩

/-- Model of Go `float64` restricted to the operations the repository
performs on it: IEEE equality (`==`/`!=`), subtraction, order comparison
and negation.  Finite values carry their exact rational value;
`inf true` is +Inf, `inf false` is -Inf. -/
inductive GoFloat where
  | finite : Frac → GoFloat
  | inf : Bool → GoFloat
  | nan : GoFloat
deriving DecidableEq

/-- The finite float with integer value `n`. -/
def GoFloat.ofInt (n : Int) : GoFloat := .finite (Frac.ofInt n)

namespace GoFloat

/-- IEEE `==`: NaN is equal to nothing, infinities compare by sign. -/
def feq : GoFloat → GoFloat → Bool
  | .finite a, .finite b => a.beq b
  | .inf s, .inf t => decide (s = t)
  | _, _ => false

/-- IEEE subtraction on the represented values (finite arithmetic is exact
in the model; `Inf - Inf` of equal signs and any NaN operand give NaN). -/
def sub : GoFloat → GoFloat → GoFloat
  | .nan, _ => .nan
  | _, .nan => .nan
  | .finite a, .finite b => .finite (a.fsub b)
  | .finite _, .inf s => .inf (!s)
  | .inf s, .finite _ => .inf s
  | .inf s, .inf t => if s = t then .nan else .inf s

/-- IEEE `<`: any comparison involving NaN is false. -/
def flt : GoFloat → GoFloat → Bool
  | .nan, _ => false
  | _, .nan => false
  | .finite a, .finite b => a.blt b
  | .finite _, .inf s => s
  | .inf s, .finite _ => !s
  | .inf s, .inf t => !s && t

/-- IEEE negation. -/
def fneg : GoFloat → GoFloat
  | .finite a => .finite a.fneg
  | .inf s => .inf (!s)
  | .nan => .nan

def isFinite : GoFloat → Bool
  | .finite _ => true
  | _ => false

def isNan : GoFloat → Bool
  | .nan => true
  | _ => false

end GoFloat

/-- Go `!=` on a type with decidable equality (int64, int, string). -/
def bneD {α : Type _} [DecidableEq α] (a b : α) : Bool := decide (¬ a = b)

/-- `cupid.Address` (internal/cupid/models.go). -/
structure Address where
  address : String
  city : String
  state : String
  country : String
  postalCode : String
deriving DecidableEq

/-- `cupid.Property`: the scalar header fields the sync path stores,
reads back or compares.  The remaining fields only enter the opaque
`property_details` document (see module comment). -/
structure Property where
  hotelID : Int
  cupidID : Int
  mainImageTh : String
  hotelType : String
  hotelTypeID : Int
  chain : String
  chainID : Int
  latitude : GoFloat
  longitude : GoFloat
  hotelName : String
  phone : String
  fax : String
  email : String
  address : Address
  stars : Int
  airportCode : String
  rating : GoFloat
  reviewCount : Int
  description : String
  markdownDescription : String
  importantInfo : String
deriving DecidableEq

/-- `cupid.Review`. -/
structure Review where
  reviewID : Int
  averageScore : Int
  country : String
  type : String
  name : String
  date : String
  headline : String
  language : String
  pros : String
  cons : String
  source : String
deriving DecidableEq

/-- `cupid.PropertyData`: the bundle moved through the pipeline.  The Go
`map[string]*Property` of translations is an association list; Go's map
invariant (distinct keys) is assumed as a hypothesis where needed. -/
structure PropertyData where
  property : Property
  reviews : List Review
  translations : List (String × Property)
deriving DecidableEq

/-- Go map lookup `m[k]` on the association-list model. -/
def mapLookup {κ α : Type _} [DecidableEq κ] (m : List (κ × α)) (k : κ) : Option α :=
  (m.find? fun e => decide (e.1 = k)).map Prod.snd

/-- Go map assignment `m[k] = v`: replace the entry if the key is present,
append otherwise. -/
def mapInsert {κ α : Type _} [DecidableEq κ] (m : List (κ × α)) (k : κ) (v : α) :
    List (κ × α) :=
  if m.any fun e => decide (e.1 = k) then
    m.map fun e => if e.1 = k then (k, v) else e
  else m ++ [(k, v)]

/-- `sync.PropertyChanges` (internal/sync/comparator.go). -/
structure PropertyChanges where
  propertyChanged : Bool
  reviewsChanged : Bool
  translationsChanged : Bool
  changes : List String
deriving DecidableEq

/-- `PropertyChanges.HasChanges`. -/
def PropertyChanges.hasChanges (pc : PropertyChanges) : Bool :=
  pc.propertyChanged || pc.reviewsChanged || pc.translationsChanged

/-- `DataComparator.compareFloat64`: `|a - b| < 0.0001` computed with IEEE
subtraction, negation and comparison exactly as the Go code does. -/
def compareFloat64 (a b : GoFloat) : Bool :=
  let diff := a.sub b
  let diff2 := if diff.flt (GoFloat.ofInt 0) then diff.fneg else diff
  diff2.flt (.finite ⟨1, 10000⟩)

/-- `DataComparator.compareAddress`: field-by-field `!=`. -/
def compareAddress (f s : Address) : Bool :=
  bneD f.address s.address || bneD f.city s.city || bneD f.state s.state ||
    bneD f.country s.country || bneD f.postalCode s.postalCode

/-- `DataComparator.compareProperty`.  The Go early returns are flattened
to the equivalent disjunction, in source order.  Note the source compares
HotelID, CupidID, HotelName, HotelType, Chain, Stars, Rating (IEEE `!=`),
ReviewCount and MainImageTh, then Latitude/Longitude with tolerance, then
the address; it never reads HotelTypeID, ChainID or AirportCode. -/
def compareProperty (f s : Property) : Bool :=
  (bneD f.hotelID s.hotelID || bneD f.cupidID s.cupidID ||
      bneD f.hotelName s.hotelName || bneD f.hotelType s.hotelType ||
      bneD f.chain s.chain || bneD f.stars s.stars ||
      !(f.rating.feq s.rating) || bneD f.reviewCount s.reviewCount ||
      bneD f.mainImageTh s.mainImageTh) ||
    (!(compareFloat64 f.latitude s.latitude) ||
      !(compareFloat64 f.longitude s.longitude)) ||
    compareAddress f.address s.address

/-- `DataComparator.compareReview`: the ten compared fields (`Type` is
not among them, matching the source). -/
def compareReview (f s : Review) : Bool :=
  bneD f.reviewID s.reviewID || bneD f.averageScore s.averageScore ||
    bneD f.country s.country || bneD f.name s.name || bneD f.headline s.headline ||
    bneD f.pros s.pros || bneD f.cons s.cons || bneD f.date s.date ||
    bneD f.language s.language || bneD f.source s.source

/-- The two range loops shared by `compareReviews` and
`compareTranslations` once the key maps exist: some fetched entry is
missing or unequal in stored, or some stored key is missing in fetched. -/
def mapMismatch {κ α : Type _} [DecidableEq κ] (cmp : α → α → Bool)
    (fm sm : List (κ × α)) : Bool :=
  (fm.any fun e =>
      match mapLookup sm e.1 with
      | none => true
      | some q => cmp e.2 q) ||
    sm.any fun e => (mapLookup fm e.1).isNone

/-- The map built by `compareReviews`' first loops: key each review by
`ReviewID`, later slice entries overwriting earlier ones (Go map writes). -/
def buildReviewMap (rs : List Review) : List (Int × Review) :=
  rs.foldl (fun m r => mapInsert m r.reviewID r) []

/-- `DataComparator.compareReviews`: slice-length check, then the keyed
map comparison. -/
def compareReviews (f s : List Review) : Bool :=
  if f.length ≠ s.length then true
  else mapMismatch compareReview (buildReviewMap f) (buildReviewMap s)

/-- `DataComparator.compareTranslations`: map-size check, then per-language
comparison with `compareProperty`. -/
def compareTranslations (f s : List (String × Property)) : Bool :=
  if f.length ≠ s.length then true
  else mapMismatch compareProperty f s

/-- `DataComparator.ComparePropertyData`. -/
def ComparePropertyData (fetched stored : PropertyData) : PropertyChanges :=
  { propertyChanged := compareProperty fetched.property stored.property
    reviewsChanged := compareReviews fetched.reviews stored.reviews
    translationsChanged := compareTranslations fetched.translations stored.translations
    changes :=
      (if compareProperty fetched.property stored.property then ["property"] else []) ++
        (if compareReviews fetched.reviews stored.reviews then ["reviews"] else []) ++
        (if compareTranslations fetched.translations stored.translations then
          ["translations"] else []) }

/-- Latitude and longitude finite, rating not NaN: the precondition under
which the comparator's property diff is reflexive. -/
def propFloatsOk (p : Property) : Bool :=
  p.latitude.isFinite && p.longitude.isFinite && !p.rating.isNan

/-- Every float field of the bundle (header and translation headers)
satisfies `propFloatsOk`. -/
def bundleFloatsOk (x : PropertyData) : Bool :=
  propFloatsOk x.property && x.translations.all fun e => propFloatsOk e.2

/-- Go's map invariant on the association-list model of the translations
map: languages are distinct. -/
def transKeysNodup (x : PropertyData) : Prop :=
  (x.translations.map Prod.fst).Nodup

/-- A row of the `properties` table: exactly the 18 columns written by
`storeMainProperty` and read back by `getMainProperty`. -/
structure PropRow where
  hotelID : Int
  cupidID : Int
  hotelName : String
  hotelType : String
  hotelTypeID : Int
  chain : String
  chainID : Int
  latitude : GoFloat
  longitude : GoFloat
  stars : Int
  rating : GoFloat
  reviewCount : Int
  airportCode : String
  city : String
  state : String
  country : String
  postalCode : String
  mainImageTh : String
deriving DecidableEq

/-- A row of the `reviews` table: the columns written by `storeReviews`. -/
structure ReviewRow where
  propertyID : Int
  reviewID : Int
  averageScore : Int
  country : String
  type : String
  name : String
  date : String
  headline : String
  language : String
  pros : String
  cons : String
  source : String
deriving DecidableEq

/-- A row of the `translations` table: the columns written by
`storeTranslations`. -/
structure TranslationRow where
  propertyID : Int
  language : String
  hotelName : String
  description : String
  markdownDescription : String
  importantInfo : String
deriving DecidableEq

/-- The slice of database state the sync path reads and writes.  The
`property_details` JSONB payload is opaque to every reader in the repo,
so its row keeps the full bundle it was serialized from. -/
structure DB where
  properties : List PropRow
  details : List (Int × PropertyData)
  reviews : List ReviewRow
  translations : List TranslationRow
deriving DecidableEq

def DB.empty : DB := ⟨[], [], [], []⟩

/-- The column values `storeMainProperty` binds for a property. -/
def propRowOf (p : Property) : PropRow :=
  { hotelID := p.hotelID, cupidID := p.cupidID, hotelName := p.hotelName
    hotelType := p.hotelType, hotelTypeID := p.hotelTypeID, chain := p.chain
    chainID := p.chainID, latitude := p.latitude, longitude := p.longitude
    stars := p.stars, rating := p.rating, reviewCount := p.reviewCount
    airportCode := p.airportCode, city := p.address.city, state := p.address.state
    country := p.address.country, postalCode := p.address.postalCode
    mainImageTh := p.mainImageTh }

/-- `storeMainProperty`: `INSERT ... ON CONFLICT (hotel_id) DO UPDATE`. -/
def storeMainProperty (db : DB) (p : Property) : DB :=
  if db.properties.any fun r => decide (r.hotelID = p.hotelID) then
    { db with properties :=
        db.properties.map fun r => if r.hotelID = p.hotelID then propRowOf p else r }
  else { db with properties := db.properties ++ [propRowOf p] }

/-- `storePropertyDetails`: `INSERT ... ON CONFLICT (property_id) DO UPDATE`
of the opaque JSONB payload. -/
def storePropertyDetails (db : DB) (pd : PropertyData) : DB :=
  if db.details.any fun e => decide (e.1 = pd.property.hotelID) then
    { db with details :=
        db.details.map fun e =>
          if e.1 = pd.property.hotelID then (pd.property.hotelID, pd) else e }
  else { db with details := db.details ++ [(pd.property.hotelID, pd)] }

/-- The column values one `storeReviews` insert binds. -/
def reviewRowOf (hid : Int) (r : Review) : ReviewRow :=
  { propertyID := hid, reviewID := r.reviewID, averageScore := r.averageScore
    country := r.country, type := r.type, name := r.name, date := r.date
    headline := r.headline, language := r.language, pros := r.pros
    cons := r.cons, source := r.source }

/-- `storeReviews`: early return on an empty slice, otherwise
`DELETE WHERE property_id = hid` then insert every fetched review. -/
def storeReviews (db : DB) (hid : Int) (rs : List Review) : DB :=
  if rs.isEmpty then db
  else
    { db with reviews :=
        (db.reviews.filter fun row => decide (¬ row.propertyID = hid)) ++
          rs.map (reviewRowOf hid) }

/-- The column values one `storeTranslations` insert binds. -/
def translationRowOf (hid : Int) (e : String × Property) : TranslationRow :=
  { propertyID := hid, language := e.1, hotelName := e.2.hotelName
    description := e.2.description, markdownDescription := e.2.markdownDescription
    importantInfo := e.2.importantInfo }

/-- `storeTranslations`: early return on an empty map, otherwise
`DELETE WHERE property_id = hid` then insert one row per language. -/
def storeTranslations (db : DB) (hid : Int) (ts : List (String × Property)) : DB :=
  if ts.isEmpty then db
  else
    { db with translations :=
        (db.translations.filter fun row => decide (¬ row.propertyID = hid)) ++
          ts.map (translationRowOf hid) }

/-- The committed effect of a fully successful `StoreProperty`
transaction: the four steps in source order. -/
def storePropertyCommitted (db : DB) (pd : PropertyData) : DB :=
  storeTranslations
    (storeReviews
      (storePropertyDetails (storeMainProperty db pd.property) pd)
      pd.property.hotelID pd.reviews)
    pd.property.hotelID pd.translations

/-- The points at which the `StoreProperty` transaction can fail: the
`BeginTx` call, each of the four store steps (any statement failure inside
a step aborts the step), and the final `Commit`. -/
inductive StoreStep where
  | beginTx
  | mainProperty
  | details
  | reviews
  | translations
  | commit
deriving DecidableEq

/-- `storage.StoreProperty`: runs the four steps inside one transaction,
with `defer tx.Rollback()`; the failure oracle says which step's database
call fails.  Returns the visible database state and the failed step, if
any: on any failure the transaction is rolled back, so the visible state
is the input state. -/
def StoreProperty (fail : StoreStep → Bool) (db : DB) (pd : PropertyData) :
    DB × Option StoreStep :=
  if fail .beginTx then (db, some .beginTx)
  else if fail .mainProperty then (db, some .mainProperty)
  else
    let tx1 := storeMainProperty db pd.property
    if fail .details then (db, some .details)
    else
      let tx2 := storePropertyDetails tx1 pd
      if fail .reviews then (db, some .reviews)
      else
        let tx3 := storeReviews tx2 pd.property.hotelID pd.reviews
        if fail .translations then (db, some .translations)
        else
          let tx4 := storeTranslations tx3 pd.property.hotelID pd.translations
          if fail .commit then (db, some .commit)
          else (tx4, none)

/-- The `cupid.Property` value `getMainProperty` reconstructs from a
`properties` row: the 18 scanned columns; every other field keeps the Go
zero value (note the street address is NOT a column, so it comes back
empty). -/
def propertyOfRow (r : PropRow) : Property :=
  { hotelID := r.hotelID, cupidID := r.cupidID, mainImageTh := r.mainImageTh
    hotelType := r.hotelType, hotelTypeID := r.hotelTypeID, chain := r.chain
    chainID := r.chainID, latitude := r.latitude, longitude := r.longitude
    hotelName := r.hotelName, phone := "", fax := "", email := ""
    address := { address := "", city := r.city, state := r.state
                 country := r.country, postalCode := r.postalCode }
    stars := r.stars, airportCode := r.airportCode, rating := r.rating
    reviewCount := r.reviewCount, description := "", markdownDescription := ""
    importantInfo := "" }

/-- `getMainProperty`: single-row select by `hotel_id`; `sql.ErrNoRows`
becomes the "property not found" error. -/
def getMainProperty (db : DB) (hid : Int) : Except String Property :=
  match db.properties.find? fun r => decide (r.hotelID = hid) with
  | none => .error "property not found"
  | some r => .ok (propertyOfRow r)

/-- The `cupid.Review` value `GetPropertyReviews` scans from a row (all
eleven columns are read back). -/
def reviewOfRow (r : ReviewRow) : Review :=
  { reviewID := r.reviewID, averageScore := r.averageScore, country := r.country
    type := r.type, name := r.name, date := r.date, headline := r.headline
    language := r.language, pros := r.pros, cons := r.cons, source := r.source }

/-- `ORDER BY date DESC` of the reviews query, as an insertion sort on the
date column (ties keep a deterministic order; the comparator never
depends on order). -/
def insertByDateDesc (r : Review) : List Review → List Review
  | [] => [r]
  | x :: xs => if x.date ≤ r.date then r :: x :: xs else x :: insertByDateDesc r xs

/-- `GetPropertyReviews`: rows for the property, ordered by date
descending. -/
def GetPropertyReviews (db : DB) (hid : Int) : List Review :=
  ((db.reviews.filter fun row => decide (row.propertyID = hid)).map reviewOfRow).foldr
    insertByDateDesc []

/-- The translated-header value `GetPropertyTranslations` reconstructs:
only `hotel_name`, `description`, `markdown_description` and
`important_info` are columns; every other field of the Go `Property`
keeps its zero value. -/
def translationOfRow (r : TranslationRow) : Property :=
  { hotelID := 0, cupidID := 0, mainImageTh := "", hotelType := ""
    hotelTypeID := 0, chain := "", chainID := 0
    latitude := GoFloat.ofInt 0, longitude := GoFloat.ofInt 0
    hotelName := r.hotelName, phone := "", fax := "", email := ""
    address := { address := "", city := "", state := "", country := "", postalCode := "" }
    stars := 0, airportCode := "", rating := GoFloat.ofInt 0, reviewCount := 0
    description := r.description, markdownDescription := r.markdownDescription
    importantInfo := r.importantInfo }

/-- `GetPropertyTranslations`: one map entry per translation row. -/
def GetPropertyTranslations (db : DB) (hid : Int) : List (String × Property) :=
  (db.translations.filter fun row => decide (row.propertyID = hid)).map fun row =>
    (row.language, translationOfRow row)

/-- `storage.GetProperty`: main row, then reviews, then translations. -/
def GetProperty (db : DB) (hid : Int) : Except String PropertyData :=
  match getMainProperty db hid with
  | .error e => .error e
  | .ok p =>
      .ok { property := p, reviews := GetPropertyReviews db hid
            translations := GetPropertyTranslations db hid }

/-- The error kinds a storage read can produce: `sql.ErrNoRows` mapped to
"property not found", or any other database failure. -/
inductive StoreReadErr where
  | notFound
  | other : String → StoreReadErr
deriving DecidableEq

/-- `SyncService.compareAndUpdateProperty` against the abstract `Storage`
interface (exactly how the repo's own tests drive it): `read` is the
`GetProperty` outcome for this hotel, `storeOk` whether a `StoreProperty`
call would succeed.  Returns the `(bool, error)` result paired with the
number of `StoreProperty` calls made.  Note the source inspects only
`err != nil` on the read — the error kind is never examined — and calls
`StoreProperty` at most once (no retry loop). -/
def compareAndUpdateProperty (read : Except StoreReadErr PropertyData)
    (storeOk : Bool) (fetched : PropertyData) : Except String Bool × Nat :=
  match read with
  | .error _ =>
      if storeOk then (.ok true, 1) else (.error "failed to store new property", 1)
  | .ok stored =>
      let changes := ComparePropertyData fetched stored
      if !changes.hasChanges then (.ok false, 0)
      else if storeOk then (.ok true, 1) else (.error "failed to update property", 1)

/-- `compareAndUpdateProperty` wired to the real storage embedding with
all writes succeeding: returns the new database state and whether the
property was counted as updated. -/
def compareAndUpdatePropertyDB (db : DB) (fetched : PropertyData) : DB × Bool :=
  match GetProperty db fetched.property.hotelID with
  | .error _ => (storePropertyCommitted db fetched, true)
  | .ok stored =>
      if !(ComparePropertyData fetched stored).hasChanges then (db, false)
      else (storePropertyCommitted db fetched, true)

/-- One sync run's per-property loop (`performSync`'s batch loop and
`processBatch`'s workers, linearized: the batch split and the worker pool
only group the same per-property steps, and `processBatch` never returns
an error).  Returns the final database and the updated count. -/
def syncRun (db : DB) (bundles : List PropertyData) : DB × Nat :=
  bundles.foldl
    (fun acc b =>
      let r := compareAndUpdatePropertyDB acc.1 b
      (r.1, acc.2 + if r.2 then 1 else 0))
    (db, 0)

/-- `Service.FetchAllProperties`, parametrized by the per-property fetch
outcomes: collects the successful bundles and the per-property errors,
and — as its own doc comment states — ALWAYS returns a nil error. -/
def FetchAllProperties (outcomes : List (Except String PropertyData)) :
    List PropertyData × List String × Option String :=
  (outcomes.foldr (fun o acc => match o with | .ok pd => pd :: acc | .error _ => acc) [],
    outcomes.foldr (fun o acc => match o with | .ok _ => acc | .error e => e :: acc) [],
    none)

/-- `sync.SyncResult`, restricted to the fields the claims mention. -/
structure SyncResult where
  status : String
  totalProperties : Nat
  updatedProperties : Nat
  failedProperties : Nat
  error : Option String
deriving DecidableEq

/-- The tail of `SyncService.performSync` once the fetch result is in
hand: fail the run iff the fetch returned a non-nil error, otherwise
process every bundle and complete. -/
def performSyncWith (db : DB) (fetched : List PropertyData × Option String) :
    SyncResult × DB :=
  match fetched.2 with
  | some e =>
      ({ status := "failed", totalProperties := 0, updatedProperties := 0
         failedProperties := 0, error := some e }, db)
  | none =>
      let r := syncRun db fetched.1
      ({ status := "completed", totalProperties := fetched.1.length
         updatedProperties := r.2, failedProperties := 0, error := none }, r.1)

/-- `SyncService.performSync` composed with the service fetcher (the
`createSyncLog`/`updateSyncLog`/`updateSyncTimestamp` calls are stubs
returning nil in the source and have no modelled effect). -/
def performSync (db : DB) (outcomes : List (Except String PropertyData)) :
    SyncResult × DB :=
  let f := FetchAllProperties outcomes
  performSyncWith db (f.1, f.2.2)

/-- `sync.Config`. Durations are nanoseconds, as in Go. -/
structure Config where
  interval : Int
  batchSize : Int
  maxConcurrent : Int
  retryAttempts : Int
  retryDelay : Int
  rateLimitPerSec : Int
  enableAuto : Bool
deriving DecidableEq

/-- `sync.DefaultConfig`. -/
def DefaultConfig : Config :=
  { interval := 12 * 3600 * 1000000000, batchSize := 10, maxConcurrent := 5
    retryAttempts := 3, retryDelay := 5 * 1000000000, rateLimitPerSec := 10
    enableAuto := true }

/-- The upstream outcomes one `FetchAllPropertyData` call can observe. -/
structure Upstream where
  propertyResult : Except String Property
  reviewsResult : Except String (List Review)
  translationResult : String → Except String Property

/-- The upstream endpoints, for recording which calls were made. -/
inductive ApiCall where
  | propertyCall
  | reviewsCall : Int → ApiCall
  | translationCall : String → ApiCall
deriving DecidableEq

/-- The fixed language set of `FetchAllPropertyData`. -/
def translationLanguages : List String := ["fr", "es"]

/-- `Client.FetchAllPropertyData`, instrumented with the list of upstream
calls made: header first (fatal on failure); reviews only when
`ReviewCount > 0`, a failure logged and replaced by the empty slice; one
translation attempt per language in the fixed set, a failure logged and
the language omitted. -/
def FetchAllPropertyData (u : Upstream) : Except String PropertyData × List ApiCall :=
  match u.propertyResult with
  | .error e => (.error ("failed to fetch property details: " ++ e), [.propertyCall])
  | .ok p =>
      let rstep : List Review × List ApiCall :=
        if p.reviewCount > 0 then
          match u.reviewsResult with
          | .ok rs => (rs, [.reviewsCall p.reviewCount])
          | .error _ => ([], [.reviewsCall p.reviewCount])
        else ([], [])
      let tstep : List (String × Property) × List ApiCall :=
        translationLanguages.foldl
          (fun acc lang =>
            match u.translationResult lang with
            | .ok t => (mapInsert acc.1 lang t, acc.2 ++ [.translationCall lang])
            | .error _ => (acc.1, acc.2 ++ [.translationCall lang]))
          ([], [])
      (.ok { property := p, reviews := rstep.1, translations := tstep.1 },
        .propertyCall :: (rstep.2 ++ tstep.2))

/-- `Except` discriminator. -/
def exIsError {ε α : Type _} : Except ε α → Bool
  | .error _ => true
  | .ok _ => false

instance {ε α : Type _} [DecidableEq ε] [DecidableEq α] : DecidableEq (Except ε α) :=
  fun a b =>
    match a, b with
    | .error x, .error y =>
        if h : x = y then isTrue (by rw [h]) else
          isFalse (by intro hh; cases hh; exact h rfl)
    | .ok x, .ok y =>
        if h : x = y then isTrue (by rw [h]) else
          isFalse (by intro hh; cases hh; exact h rfl)
    | .error _, .ok _ => isFalse (by intro hh; cases hh)
    | .ok _, .error _ => isFalse (by intro hh; cases hh)

/-- The language a call addressed, if it was a translation call. -/
def apiCallLang : ApiCall → Option String
  | .translationCall l => some l
  | _ => none

/-- `sync.SyncStatus`, restricted to what `IsSyncOverdue`/`IsHealthy`
read.  `lastSync` is an instant in nanoseconds with `0` the Go zero time
(`time.Time{}.IsZero()`); `syncInterval` is the duration string field. -/
structure SyncStatus where
  isRunning : Bool
  lastSync : Int
  syncInterval : String
deriving DecidableEq

/-- `SyncStatus.IsSyncOverdue`, with the current instant `now` explicit
(`time.Since`) and `parse` standing for `time.ParseDuration`, whose error
the source discards. -/
def IsSyncOverdue (parse : String → Int) (now : Int) (ss : SyncStatus) : Bool :=
  if !ss.isRunning && !(decide (ss.lastSync = 0)) then
    decide (now - ss.lastSync > parse ss.syncInterval * 2)
  else false

/-- `SyncStatus.IsHealthy`: running, or not overdue. -/
def IsHealthy (parse : String → Int) (now : Int) (ss : SyncStatus) : Bool :=
  ss.isRunning || !IsSyncOverdue parse now ss

/-- An all-zero `Address`. -/
def addr0 : Address := ⟨"", "", "", "", ""⟩

/-- A zero-value `cupid.Property` (the Go `var p cupid.Property`). -/
def prop0 : Property :=
  { hotelID := 0, cupidID := 0, mainImageTh := "", hotelType := ""
    hotelTypeID := 0, chain := "", chainID := 0
    latitude := GoFloat.ofInt 0, longitude := GoFloat.ofInt 0
    hotelName := "", phone := "", fax := "", email := "", address := addr0
    stars := 0, airportCode := "", rating := GoFloat.ofInt 0, reviewCount := 0
    description := "", markdownDescription := "", importantInfo := "" }

/-- A concrete review for counterexample states. -/
def rev0 : Review :=
  { reviewID := 1, averageScore := 4, country := "US", type := "guest"
    name := "John", date := "2024-01-15", headline := "Great", language := "en"
    pros := "Clean", cons := "Noisy", source := "booking.com" }

/-- Sample bundle with non-empty scalar content, used by several
witnesses: a property whose street address is set. -/
def propC3 : Property :=
  { prop0 with hotelID := 1, hotelName := "H"
               address := { addr0 with address := "123 Champs", city := "Paris" } }

/-- The idempotence failing input: a single property with a non-empty
street address, no reviews, no translations. -/
def pdC3 : PropertyData := { property := propC3, reviews := [], translations := [] }

/-- Bundle whose header has a NaN latitude. -/
def pdNan : PropertyData :=
  { property := { prop0 with latitude := .nan }, reviews := [], translations := [] }

/-- Prior state for the C1 counterexample: hotel 1 already has one review
row and one translation row. -/
def dbC1 : DB :=
  { properties := [propRowOf { prop0 with hotelID := 1 }], details := []
    reviews := [reviewRowOf 1 rev0]
    translations := [translationRowOf 1 ("en", prop0)] }

/-- Bundle for hotel 1 with empty reviews and empty translations. -/
def pdC1 : PropertyData :=
  { property := { prop0 with hotelID := 1 }, reviews := [], translations := [] }

/-- Concrete upstream for the C9 witness: header ok with zero reviews,
reviews endpoint failing, French translation failing, Spanish
succeeding. -/
def u0 : Upstream :=
  { propertyResult := .ok prop0
    reviewsResult := .error "500"
    translationResult := fun lang => if lang = "fr" then .error "500" else .ok propC3 }

/-- Bundle for hotel 1 with one review and one translation, for the C1
witness. -/
def pdW1 : PropertyData :=
  { property := { prop0 with hotelID := 1 }, reviews := [rev0]
    translations := [("fr", propC3)] }

theorem bneD_self {α : Type _} [DecidableEq α] (a : α) : bneD a a = false := by
  simp [bneD]

theorem bneD_symm {α : Type _} [DecidableEq α] (a b : α) : bneD a b = bneD b a := by
  simp only [bneD]
  exact decide_eq_decide.mpr (by constructor <;> (intro h he; exact h he.symm))

theorem feq_symm (a b : GoFloat) : a.feq b = b.feq a := by
  cases a <;> cases b <;> simp only [GoFloat.feq, Frac.beq] <;>
    exact decide_eq_decide.mpr (by constructor <;> (intro h; exact h.symm))

theorem feq_self_of_not_nan (a : GoFloat) (h : a.isNan = false) : a.feq a = true := by
  cases a <;> simp_all [GoFloat.feq, GoFloat.isNan, Frac.beq]

theorem compareFloat64_finite (x y : Frac) :
    compareFloat64 (.finite x) (.finite y) =
      decide (|x.num * (y.den : ℤ) - y.num * (x.den : ℤ)| * 10000 <
        (x.den : ℤ) * (y.den : ℤ)) := by
  simp only [compareFloat64, GoFloat.sub, Frac.fsub, GoFloat.flt, Frac.blt, GoFloat.fneg,
    Frac.fneg, GoFloat.ofInt, Frac.ofInt, PNat.mul_coe, Nat.cast_mul, PNat.one_coe,
    Nat.cast_one, mul_one, zero_mul, one_mul]
  by_cases h : x.num * (y.den : ℤ) - y.num * (x.den : ℤ) < 0
  · simp [h, abs_of_neg h]
  · simp [h, abs_of_nonneg (not_lt.mp h)]

theorem compareFloat64_symm (a b : GoFloat) : compareFloat64 a b = compareFloat64 b a := by
  cases a <;> cases b <;>
    first
    | rfl
    | (rename_i s t; cases s <;> cases t <;> rfl)
    | (rename_i s; cases s <;> rfl)
    | skip
  rename_i x y
  rw [compareFloat64_finite, compareFloat64_finite]
  refine decide_eq_decide.mpr ?_
  have h1 : y.num * (x.den : ℤ) - x.num * (y.den : ℤ) =
      -(x.num * (y.den : ℤ) - y.num * (x.den : ℤ)) := by ring
  rw [h1, abs_neg, mul_comm ((y.den : ℤ)) ((x.den : ℤ))]

theorem compareFloat64_self_of_finite (a : GoFloat) (h : a.isFinite = true) :
    compareFloat64 a a = true := by
  cases a <;> simp_all [GoFloat.isFinite]
  rename_i x
  rw [compareFloat64_finite]
  simp only [sub_self, abs_zero, zero_mul, decide_eq_true_eq]
  positivity

theorem compareAddress_self (a : Address) : compareAddress a a = false := by
  simp [compareAddress, bneD_self]

theorem compareAddress_symm (f s : Address) : compareAddress f s = compareAddress s f := by
  simp only [compareAddress]
  rw [bneD_symm f.address s.address, bneD_symm f.city s.city, bneD_symm f.state s.state,
    bneD_symm f.country s.country, bneD_symm f.postalCode s.postalCode]

theorem compareProperty_self (p : Property) (h : propFloatsOk p = true) :
    compareProperty p p = false := by
  have h' := h
  simp only [propFloatsOk, Bool.and_eq_true, Bool.not_eq_true'] at h'
  obtain ⟨⟨hlat, hlon⟩, hrat⟩ := h'
  simp [compareProperty, bneD_self, compareAddress_self,
    feq_self_of_not_nan p.rating hrat, compareFloat64_self_of_finite p.latitude hlat,
    compareFloat64_self_of_finite p.longitude hlon]

theorem compareProperty_symm (f s : Property) :
    compareProperty f s = compareProperty s f := by
  simp only [compareProperty]
  rw [bneD_symm f.hotelID s.hotelID, bneD_symm f.cupidID s.cupidID,
    bneD_symm f.hotelName s.hotelName, bneD_symm f.hotelType s.hotelType,
    bneD_symm f.chain s.chain, bneD_symm f.stars s.stars,
    feq_symm f.rating s.rating, bneD_symm f.reviewCount s.reviewCount,
    bneD_symm f.mainImageTh s.mainImageTh,
    compareFloat64_symm f.latitude s.latitude,
    compareFloat64_symm f.longitude s.longitude,
    compareAddress_symm f.address s.address]

theorem compareReview_self (r : Review) : compareReview r r = false := by
  simp [compareReview, bneD_self]

theorem compareReview_symm (f s : Review) : compareReview f s = compareReview s f := by
  simp only [compareReview]
  rw [bneD_symm f.reviewID s.reviewID, bneD_symm f.averageScore s.averageScore,
    bneD_symm f.country s.country, bneD_symm f.name s.name,
    bneD_symm f.headline s.headline, bneD_symm f.pros s.pros,
    bneD_symm f.cons s.cons, bneD_symm f.date s.date,
    bneD_symm f.language s.language, bneD_symm f.source s.source]

theorem mapLookup_cons_pos {κ α : Type _} [DecidableEq κ] {e : κ × α} {t : List (κ × α)}
    {k : κ} (hk : e.1 = k) : mapLookup (e :: t) k = some e.2 := by
  unfold mapLookup
  rw [List.find?_cons_of_pos _ (by simp [hk])]
  rfl

theorem mapLookup_cons_neg {κ α : Type _} [DecidableEq κ] {e : κ × α} {t : List (κ × α)}
    {k : κ} (hk : ¬ e.1 = k) : mapLookup (e :: t) k = mapLookup t k := by
  unfold mapLookup
  rw [List.find?_cons_of_neg _ (by simp [hk])]

theorem mapLookup_mem {κ α : Type _} [DecidableEq κ] {m : List (κ × α)} {k : κ} {v : α}
    (h : mapLookup m k = some v) : (k, v) ∈ m := by
  induction m with
  | nil => simp [mapLookup] at h
  | cons e t ih =>
      by_cases hk : e.1 = k
      · rw [mapLookup_cons_pos hk] at h
        have hv : v = e.2 := by cases h; rfl
        subst hv; subst hk
        exact List.mem_cons_self _ _
      · rw [mapLookup_cons_neg hk] at h
        exact List.mem_cons_of_mem _ (ih h)

theorem mapLookup_eq_some_of_mem {κ α : Type _} [DecidableEq κ] {m : List (κ × α)}
    {k : κ} {v : α} (hn : (m.map Prod.fst).Nodup) (h : (k, v) ∈ m) :
    mapLookup m k = some v := by
  induction m with
  | nil => cases h
  | cons e t ih =>
      simp only [List.map_cons, List.nodup_cons] at hn
      rcases List.mem_cons.mp h with he | ht
      · rw [mapLookup_cons_pos (by rw [← he])]
        rw [← he]
      · by_cases hk : e.1 = k
        · exfalso
          apply hn.1
          rw [hk]
          exact List.mem_map.mpr ⟨(k, v), ht, rfl⟩
        · rw [mapLookup_cons_neg hk]
          exact ih hn.2 ht

theorem mapLookup_isSome_of_mem {κ α : Type _} [DecidableEq κ] {m : List (κ × α)}
    {k : κ} {v : α} (h : (k, v) ∈ m) : (mapLookup m k).isSome = true := by
  induction m with
  | nil => cases h
  | cons e t ih =>
      by_cases hk : e.1 = k
      · rw [mapLookup_cons_pos hk]; rfl
      · rcases List.mem_cons.mp h with he | ht
        · exact absurd (by rw [← he]) hk
        · rw [mapLookup_cons_neg hk]
          exact ih ht

theorem mapLookup_isSome_elim {κ α : Type _} [DecidableEq κ] {m : List (κ × α)} {k : κ}
    (h : (mapLookup m k).isSome = true) : ∃ v, mapLookup m k = some v := by
  cases hm : mapLookup m k with
  | none => rw [hm] at h; cases h
  | some v => exact ⟨v, rfl⟩

theorem mapInsert_keys {κ α : Type _} [DecidableEq κ] (m : List (κ × α)) (k : κ) (v : α)
    (hn : (m.map Prod.fst).Nodup) : ((mapInsert m k v).map Prod.fst).Nodup := by
  unfold mapInsert
  split
  · have heq : ((m.map fun e => if e.1 = k then (k, v) else e).map Prod.fst) =
        m.map Prod.fst := by
      rw [List.map_map]
      refine List.map_congr_left fun e _ => ?_
      by_cases he : e.1 = k
      · simp [he]
      · simp [he]
    rw [heq]; exact hn
  · rename_i hno
    simp only [List.any_eq_true, decide_eq_true_eq, not_exists, not_and] at hno
    rw [List.map_append]
    refine List.Nodup.append hn (List.nodup_singleton k) ?_
    intro a ha hb
    simp only [List.map_cons, List.map_nil, List.mem_singleton] at hb
    obtain ⟨e, he, hfst⟩ := List.mem_map.mp ha
    exact hno e he (hfst.trans hb)

theorem buildReviewMap_keys (rs : List Review) :
    ((buildReviewMap rs).map Prod.fst).Nodup := by
  have general : ∀ (l : List Review) (m : List (Int × Review)),
      (m.map Prod.fst).Nodup →
      ((l.foldl (fun m r => mapInsert m r.reviewID r) m).map Prod.fst).Nodup := by
    intro l
    induction l with
    | nil => intro m hm; exact hm
    | cons r t ih => intro m hm; exact ih _ (mapInsert_keys m r.reviewID r hm)
  exact general rs [] (by simp)

theorem mapMismatch_of_lookup_none {κ α : Type _} [DecidableEq κ] {cmp : α → α → Bool}
    {fm sm : List (κ × α)} {e : κ × α} (he : e ∈ fm) (hl : mapLookup sm e.1 = none) :
    mapMismatch cmp fm sm = true := by
  simp only [mapMismatch, Bool.or_eq_true, List.any_eq_true]
  exact Or.inl ⟨e, he, by rw [hl]⟩

theorem mapMismatch_of_cmp_true {κ α : Type _} [DecidableEq κ] {cmp : α → α → Bool}
    {fm sm : List (κ × α)} {e : κ × α} {q : α} (he : e ∈ fm)
    (hl : mapLookup sm e.1 = some q) (hc : cmp e.2 q = true) :
    mapMismatch cmp fm sm = true := by
  simp only [mapMismatch, Bool.or_eq_true, List.any_eq_true]
  exact Or.inl ⟨e, he, by rw [hl]; exact hc⟩

theorem mapMismatch_of_missing {κ α : Type _} [DecidableEq κ] {cmp : α → α → Bool}
    {fm sm : List (κ × α)} {e : κ × α} (he : e ∈ sm) (hl : mapLookup fm e.1 = none) :
    mapMismatch cmp fm sm = true := by
  simp only [mapMismatch, Bool.or_eq_true, List.any_eq_true]
  exact Or.inr ⟨e, he, by rw [hl]; rfl⟩

theorem mapMismatch_eq_false_iff {κ α : Type _} [DecidableEq κ] (cmp : α → α → Bool)
    (fm sm : List (κ × α)) :
    mapMismatch cmp fm sm = false ↔
      (∀ e ∈ fm, ∃ q, mapLookup sm e.1 = some q ∧ cmp e.2 q = false) ∧
        ∀ e ∈ sm, (mapLookup fm e.1).isSome = true := by
  constructor
  · intro h
    refine ⟨fun e he => ?_, fun e he => ?_⟩
    · cases hl : mapLookup sm e.1 with
      | none =>
          rw [mapMismatch_of_lookup_none he hl] at h; cases h
      | some q =>
          cases hc : cmp e.2 q with
          | false => exact ⟨q, rfl, hc⟩
          | true => rw [mapMismatch_of_cmp_true he hl hc] at h; cases h
    · cases hl : mapLookup fm e.1 with
      | none => rw [mapMismatch_of_missing he hl] at h; cases h
      | some v => rfl
  · rintro ⟨h1, h2⟩
    simp only [mapMismatch, Bool.or_eq_false_iff]
    constructor
    · rw [List.any_eq_false]
      intro e he
      obtain ⟨q, hq, hc⟩ := h1 e he
      simp [hq, hc]
    · rw [List.any_eq_false]
      intro e he
      obtain ⟨v, hv⟩ := mapLookup_isSome_elim (h2 e he)
      simp [hv]

theorem mapMismatch_false_flip {κ α : Type _} [DecidableEq κ] (cmp : α → α → Bool)
    (hc : ∀ a b, cmp a b = cmp b a) (fm sm : List (κ × α))
    (hs : (sm.map Prod.fst).Nodup)
    (h : mapMismatch cmp fm sm = false) : mapMismatch cmp sm fm = false := by
  rw [mapMismatch_eq_false_iff] at h ⊢
  obtain ⟨h1, h2⟩ := h
  refine ⟨fun e he => ?_, fun e he => ?_⟩
  · obtain ⟨v, hv⟩ := mapLookup_isSome_elim (h2 e he)
    have hmem : (e.1, v) ∈ fm := mapLookup_mem hv
    obtain ⟨q, hq, hcq⟩ := h1 (e.1, v) hmem
    have he2 : mapLookup sm e.1 = some e.2 := mapLookup_eq_some_of_mem hs he
    rw [he2] at hq
    cases hq
    exact ⟨v, hv, (hc v e.2) ▸ hcq⟩
  · obtain ⟨q, hq, _⟩ := h1 e he
    rw [hq]; rfl

theorem mapMismatch_symm {κ α : Type _} [DecidableEq κ] (cmp : α → α → Bool)
    (hc : ∀ a b, cmp a b = cmp b a) (fm sm : List (κ × α))
    (hf : (fm.map Prod.fst).Nodup) (hs : (sm.map Prod.fst).Nodup) :
    mapMismatch cmp fm sm = mapMismatch cmp sm fm := by
  cases h1 : mapMismatch cmp fm sm <;> cases h2 : mapMismatch cmp sm fm
  · rfl
  · rw [mapMismatch_false_flip cmp hc fm sm hs h1] at h2; cases h2
  · rw [mapMismatch_false_flip cmp hc sm fm hf h2] at h1; cases h1
  · rfl

theorem mapMismatch_self {κ α : Type _} [DecidableEq κ] (cmp : α → α → Bool)
    (m : List (κ × α)) (hn : (m.map Prod.fst).Nodup)
    (h : ∀ e ∈ m, cmp e.2 e.2 = false) : mapMismatch cmp m m = false := by
  rw [mapMismatch_eq_false_iff]
  exact ⟨fun e he => ⟨e.2, mapLookup_eq_some_of_mem hn he, h e he⟩,
    fun e he => mapLookup_isSome_of_mem (m := m) (k := e.1) (v := e.2) he⟩

theorem compareReviews_refl (rs : List Review) : compareReviews rs rs = false := by
  unfold compareReviews
  rw [if_neg (by simp)]
  exact mapMismatch_self compareReview _ (buildReviewMap_keys rs)
    fun e _ => compareReview_self e.2

theorem compareReviews_symm (f s : List Review) :
    compareReviews f s = compareReviews s f := by
  unfold compareReviews
  by_cases h : f.length = s.length
  · rw [if_neg (by simp [h]), if_neg (by simp [h])]
    exact mapMismatch_symm compareReview compareReview_symm _ _
      (buildReviewMap_keys f) (buildReviewMap_keys s)
  · rw [if_pos h, if_pos (Ne.symm h)]

theorem compareTranslations_refl (ts : List (String × Property))
    (hn : (ts.map Prod.fst).Nodup) (h : ∀ e ∈ ts, propFloatsOk e.2 = true) :
    compareTranslations ts ts = false := by
  unfold compareTranslations
  rw [if_neg (by simp)]
  exact mapMismatch_self compareProperty ts hn fun e he => compareProperty_self e.2 (h e he)

theorem compareTranslations_symm (f s : List (String × Property))
    (hf : (f.map Prod.fst).Nodup) (hs : (s.map Prod.fst).Nodup) :
    compareTranslations f s = compareTranslations s f := by
  unfold compareTranslations
  by_cases h : f.length = s.length
  · rw [if_neg (by simp [h]), if_neg (by simp [h])]
    exact mapMismatch_symm compareProperty compareProperty_symm f s hf hs
  · rw [if_pos h, if_pos (Ne.symm h)]

theorem storeMainProperty_reviews (db : DB) (p : Property) :
    (storeMainProperty db p).reviews = db.reviews := by
  unfold storeMainProperty; split <;> rfl

theorem storeMainProperty_translations (db : DB) (p : Property) :
    (storeMainProperty db p).translations = db.translations := by
  unfold storeMainProperty; split <;> rfl

theorem storePropertyDetails_reviews (db : DB) (pd : PropertyData) :
    (storePropertyDetails db pd).reviews = db.reviews := by
  unfold storePropertyDetails; split <;> rfl

theorem storePropertyDetails_translations (db : DB) (pd : PropertyData) :
    (storePropertyDetails db pd).translations = db.translations := by
  unfold storePropertyDetails; split <;> rfl

theorem storeReviews_translations (db : DB) (h : Int) (rs : List Review) :
    (storeReviews db h rs).translations = db.translations := by
  unfold storeReviews; split <;> rfl

theorem storeTranslations_reviews (db : DB) (h : Int) (ts : List (String × Property)) :
    (storeTranslations db h ts).reviews = db.reviews := by
  unfold storeTranslations; split <;> rfl

theorem storeReviews_reviews_nonempty (db : DB) (h : Int) (rs : List Review)
    (hne : rs ≠ []) :
    (storeReviews db h rs).reviews =
      (db.reviews.filter fun row => decide (¬ row.propertyID = h)) ++
        rs.map (reviewRowOf h) := by
  unfold storeReviews
  rw [if_neg (by simpa using hne)]

theorem storeReviews_reviews_empty (db : DB) (h : Int) :
    (storeReviews db h []).reviews = db.reviews := rfl

theorem storeTranslations_translations_nonempty (db : DB) (h : Int)
    (ts : List (String × Property)) (hne : ts ≠ []) :
    (storeTranslations db h ts).translations =
      (db.translations.filter fun row => decide (¬ row.propertyID = h)) ++
        ts.map (translationRowOf h) := by
  unfold storeTranslations
  rw [if_neg (by simpa using hne)]

theorem storeTranslations_translations_empty (db : DB) (h : Int) :
    (storeTranslations db h []).translations = db.translations := rfl

/-- C1 (amended): after a successful `StoreProperty(b)`, when `b.reviews`
is non-empty the `reviews` rows for `b`'s hotelId are exactly the rows of
`b.reviews` (so, keyed by reviewId, exactly the fetched set), and likewise
for `translations` by language when `b.translations` is non-empty; but
when a child set is empty the early return in `storeReviews` /
`storeTranslations` skips the delete, so the prior rows for that hotelId
are left untouched. -/
theorem storeProperty_replace_semantics (db : DB) (pd : PropertyData) :
    (pd.reviews ≠ [] →
        ((storePropertyCommitted db pd).reviews.filter
            fun r => decide (r.propertyID = pd.property.hotelID)) =
          pd.reviews.map (reviewRowOf pd.property.hotelID))
    ∧ (pd.reviews = [] → (storePropertyCommitted db pd).reviews = db.reviews)
    ∧ (pd.translations ≠ [] →
        ((storePropertyCommitted db pd).translations.filter
            fun r => decide (r.propertyID = pd.property.hotelID)) =
          pd.translations.map (translationRowOf pd.property.hotelID))
    ∧ (pd.translations = [] →
        (storePropertyCommitted db pd).translations = db.translations) := by
  have hrev : (storePropertyCommitted db pd).reviews =
      (storeReviews (storePropertyDetails (storeMainProperty db pd.property) pd)
        pd.property.hotelID pd.reviews).reviews := by
    unfold storePropertyCommitted
    rw [storeTranslations_reviews]
  have hbase : (storePropertyDetails (storeMainProperty db pd.property) pd).reviews =
      db.reviews := by
    rw [storePropertyDetails_reviews, storeMainProperty_reviews]
  have hbase2 : (storeReviews (storePropertyDetails (storeMainProperty db pd.property) pd)
      pd.property.hotelID pd.reviews).translations = db.translations := by
    rw [storeReviews_translations, storePropertyDetails_translations,
      storeMainProperty_translations]
  refine ⟨?_, ?_, ?_, ?_⟩
  · intro hne
    rw [hrev, storeReviews_reviews_nonempty _ _ _ hne, hbase, List.filter_append]
    have h1 : ((db.reviews.filter fun row => decide (¬ row.propertyID = pd.property.hotelID)).filter
        fun r => decide (r.propertyID = pd.property.hotelID)) = [] := by
      rw [List.filter_filter]
      refine List.filter_eq_nil.mpr fun a _ => ?_
      by_cases hp : a.propertyID = pd.property.hotelID <;> simp [hp]
    have h2 : ((pd.reviews.map (reviewRowOf pd.property.hotelID)).filter
        fun r => decide (r.propertyID = pd.property.hotelID)) =
          pd.reviews.map (reviewRowOf pd.property.hotelID) := by
      refine List.filter_eq_self.mpr fun r hr => ?_
      obtain ⟨a, _, rfl⟩ := List.mem_map.mp hr
      simp [reviewRowOf]
    rw [h1, h2, List.nil_append]
  · intro he
    rw [hrev, he, storeReviews_reviews_empty, hbase]
  · intro hne
    show ((storeTranslations _ pd.property.hotelID pd.translations).translations.filter _) = _
    rw [storeTranslations_translations_nonempty _ _ _ hne, hbase2, List.filter_append]
    have h1 : ((db.translations.filter fun row => decide (¬ row.propertyID = pd.property.hotelID)).filter
        fun r => decide (r.propertyID = pd.property.hotelID)) = [] := by
      rw [List.filter_filter]
      refine List.filter_eq_nil.mpr fun a _ => ?_
      by_cases hp : a.propertyID = pd.property.hotelID <;> simp [hp]
    have h2 : ((pd.translations.map (translationRowOf pd.property.hotelID)).filter
        fun r => decide (r.propertyID = pd.property.hotelID)) =
          pd.translations.map (translationRowOf pd.property.hotelID) := by
      refine List.filter_eq_self.mpr fun r hr => ?_
      obtain ⟨a, _, rfl⟩ := List.mem_map.mp hr
      simp [translationRowOf]
    rw [h1, h2, List.nil_append]
  · intro he
    show (storeTranslations _ pd.property.hotelID pd.translations).translations = _
    rw [he, storeTranslations_translations_empty, hbase2]

/-- C1 (counterexample): storing a bundle with empty `reviews` and empty
`translations` over a hotel that already has child rows leaves the old
rows in place, so the stored sets do NOT equal the (empty) fetched sets —
the claim fails in the empty-set case it explicitly includes. -/
theorem storeProperty_emptyChildren_cex :
    pdC1.property.hotelID = 1 ∧ pdC1.reviews = [] ∧ pdC1.translations = [] ∧
    ((storePropertyCommitted dbC1 pdC1).reviews.filter
        fun r => decide (r.propertyID = 1)) = [reviewRowOf 1 rev0] ∧
    ((storePropertyCommitted dbC1 pdC1).translations.filter
        fun r => decide (r.propertyID = 1)) = [translationRowOf 1 ("en", prop0)] := by
  decide

/-- C2: `StoreProperty` is atomic: whenever any step (begin, the four
stores, commit) fails, the visible database is unchanged and an error is
reported; and it commits — making the four steps' combined effect visible
— only when every step succeeded. -/
theorem StoreProperty_atomic (fail : StoreStep → Bool) (db : DB) (pd : PropertyData) :
    ((StoreProperty fail db pd).2.isSome → (StoreProperty fail db pd).1 = db)
    ∧ ((StoreProperty fail db pd).2 = none →
        (StoreProperty fail db pd).1 = storePropertyCommitted db pd
        ∧ ∀ s, fail s = false) := by
  unfold StoreProperty
  cases h1 : fail .beginTx <;> cases h2 : fail .mainProperty <;>
    cases h3 : fail .details <;> cases h4 : fail .reviews <;>
    cases h5 : fail .translations <;> cases h6 : fail .commit <;>
    simp_all [storePropertyCommitted] <;> intro s <;> cases s <;> assumption

/-- C2 (witness): at a concrete state, a failing `reviews` step leaves the
database unchanged, and the all-success oracle commits the composite
effect. -/
theorem StoreProperty_atomic_witness :
    (StoreProperty (fun s => decide (s = .reviews)) dbC1 pdC1).1 = dbC1
    ∧ (StoreProperty (fun _ => false) dbC1 pdC1).1 = storePropertyCommitted dbC1 pdC1 :=
  ⟨(StoreProperty_atomic (fun s => decide (s = .reviews)) dbC1 pdC1).1 (by decide),
    ((StoreProperty_atomic (fun _ => false) dbC1 pdC1).2 (by decide)).1⟩

/-- C3: evaluating the code at the failing input.  Upstream holds one
property whose street address is non-empty, with no reviews and no
translations.  The first run creates it; the second run, over identical
upstream data, still reports one updated property (not zero): the street
address is never persisted in a readable column, so `GetProperty` returns
it as empty, the comparator's address check fires on every run, and the
property is re-stored. -/
theorem secondRun_updates_again :
    (syncRun DB.empty [pdC3]).2 = 1
    ∧ (syncRun (syncRun DB.empty [pdC3]).1 [pdC3]).2 = 1
    ∧ (ComparePropertyData pdC3
        { property := propertyOfRow (propRowOf propC3)
          reviews := [], translations := [] }).propertyChanged = true := by
  decide

/-- C4 (counterexample): two properties that differ only in
`hotelTypeId`, only in `chainId`, or only in `airportCode` are reported
UNCHANGED by `compareProperty`, and `ComparePropertyData` leaves
`propertyChanged` false — the comparator never reads those three
fields. -/
theorem compareProperty_ignoredFields_cex :
    compareProperty { prop0 with hotelTypeID := 7 } prop0 = false
    ∧ compareProperty { prop0 with chainID := 7 } prop0 = false
    ∧ compareProperty { prop0 with airportCode := "CDG" } prop0 = false
    ∧ (ComparePropertyData
        { property := { prop0 with hotelTypeID := 7 }, reviews := [], translations := [] }
        { property := prop0, reviews := [], translations := [] }).propertyChanged = false := by
  decide

/-- C4 (amended): `compareProperty` compares hotelId, cupidId, hotelName,
hotelType, chain, stars, rating, reviewCount and mainImageTh exactly,
latitude/longitude with tolerance 1e-4 and the address field-by-field,
but ignores hotelTypeId, chainId and airportCode entirely: its result is
invariant under changing those three fields, and a property differing
from another only in them reports no change. -/
theorem compareProperty_ignores_typeId_chainId_airport :
    (∀ (f s : Property) (t c : Int) (a : String),
        compareProperty { f with hotelTypeID := t, chainID := c, airportCode := a } s =
          compareProperty f s)
    ∧ ∀ (p : Property) (t c : Int) (a : String), propFloatsOk p = true →
        compareProperty { p with hotelTypeID := t, chainID := c, airportCode := a } p =
          false := by
  refine ⟨fun f s t c a => rfl, fun p t c a h => ?_⟩
  have h1 : compareProperty { p with hotelTypeID := t, chainID := c, airportCode := a } p =
      compareProperty p p := rfl
  rw [h1]
  exact compareProperty_self p h

/-- C4 (witness): the amended theorem applied at the zero property. -/
theorem compareProperty_ignores_typeId_chainId_airport_witness :
    compareProperty { prop0 with hotelTypeID := 1, chainID := 2, airportCode := "ORY" }
      prop0 = false :=
  compareProperty_ignores_typeId_chainId_airport.2 prop0 1 2 "ORY" (by decide)

/-- C5 (counterexample): a storage read failing with an error other than
NotFound ("connection refused") does NOT fail the property: the
orchestrator treats every read error as "property absent", immediately
calls `StoreProperty`, and — the store succeeding — the property is
counted as updated (ok true), contradicting the claim that only NotFound
triggers a create and every other read error fails the property. -/
theorem readErrorCreates_cex :
    (compareAndUpdateProperty (.error (.other "connection refused")) true pdC3).1 =
      Except.ok true
    ∧ (compareAndUpdateProperty (.error (.other "connection refused")) true pdC3).2 = 1 := by
  decide

/-- C5 (amended): `compareAndUpdateProperty` inspects only whether the
read errored, never the error kind: EVERY read error (NotFound or
otherwise) is treated as "property absent" and triggers exactly one
unconditional `StoreProperty`; the property fails only if that store
fails. -/
theorem readError_treated_as_absent (e : StoreReadErr) (storeOk : Bool)
    (fetched : PropertyData) :
    compareAndUpdateProperty (.error e) storeOk fetched =
      ((if storeOk then Except.ok true else Except.error "failed to store new property"),
        1) := by
  cases storeOk <;> rfl

/-- C6: evaluating the code at the failing input.  The stored bundle
differs from the fetched one (hotelName), the persist fails: the
orchestrator makes exactly ONE `StoreProperty` attempt and returns the
error — there is no retry loop — although `DefaultConfig` carries
`RetryAttempts = 3` and `RetryDelay = 5 s` (unused by the persist path). -/
theorem persistFailure_noRetry :
    (compareAndUpdateProperty
        (.ok { property := prop0, reviews := [], translations := [] }) false
        { property := { prop0 with hotelName := "X" }, reviews := [],
          translations := [] }).1 = Except.error "failed to update property"
    ∧ (compareAndUpdateProperty
        (.ok { property := prop0, reviews := [], translations := [] }) false
        { property := { prop0 with hotelName := "X" }, reviews := [],
          translations := [] }).2 = 1
    ∧ DefaultConfig.retryAttempts = 3
    ∧ DefaultConfig.retryDelay = 5000000000 := by
  decide

/-- C7 (counterexample): a wholesale fetch failure (every per-property
fetch errors, zero bundles) does NOT fail the run: `FetchAllProperties`
returns a nil error by construction, so `performSync` proceeds with zero
bundles and reports status "completed". -/
theorem wholesaleFetchFailure_cex :
    (FetchAllProperties [Except.error "boom", Except.error "bang"]).1 = []
    ∧ (FetchAllProperties [Except.error "boom", Except.error "bang"]).2.1 =
        ["boom", "bang"]
    ∧ (performSync DB.empty [Except.error "boom", Except.error "bang"]).1.status =
        "completed"
    ∧ (performSync DB.empty [Except.error "boom", Except.error "bang"]).1.status ≠
        "failed" := by
  decide

/-- C7 (amended): the fetcher always hands `performSync` a nil error, so
the run's "failed" branch is unreachable through it: every run completes
with status "completed" and no run-level error; in particular a wholesale
fetch failure (all outcomes errors) yields a completed run with zero
total and zero updated properties. -/
theorem performSync_never_fails (db : DB) (outcomes : List (Except String PropertyData)) :
    (FetchAllProperties outcomes).2.2 = none
    ∧ (performSync db outcomes).1.status = "completed"
    ∧ (performSync db outcomes).1.error = none
    ∧ ((∀ o ∈ outcomes, exIsError o = true) →
        (performSync db outcomes).1.totalProperties = 0
        ∧ (performSync db outcomes).1.updatedProperties = 0) := by
  refine ⟨rfl, rfl, rfl, fun h => ?_⟩
  have hempty : (FetchAllProperties outcomes).1 = [] := by
    induction outcomes with
    | nil => rfl
    | cons o t ih =>
        have ho := h o (List.mem_cons_self o t)
        cases o with
        | ok pd => cases ho
        | error e =>
            show (FetchAllProperties t).1 = []
            exact ih fun o' ho' => h o' (List.mem_cons_of_mem _ ho')
  show ((performSyncWith db ((FetchAllProperties outcomes).1, none)).1.totalProperties = 0)
    ∧ (performSyncWith db ((FetchAllProperties outcomes).1, none)).1.updatedProperties = 0
  rw [hempty]
  exact ⟨rfl, rfl⟩

/-- C7 (witness): the amended theorem applied to a run whose single fetch
outcome is an error. -/
theorem performSync_never_fails_witness :
    (performSync DB.empty [Except.error "boom"]).1.status = "completed"
    ∧ (performSync DB.empty [Except.error "boom"]).1.totalProperties = 0 :=
  ⟨(performSync_never_fails DB.empty [Except.error "boom"]).2.1,
    ((performSync_never_fails DB.empty [Except.error "boom"]).2.2.2 (by decide)).1⟩

/-- C8 (counterexample): on a bundle whose latitude is NaN the diff is
NOT reflexive: IEEE subtraction makes `compareFloat64(NaN, NaN)` false,
so `ComparePropertyData(x, x)` reports the property changed. -/
theorem comparator_nanRefl_cex :
    (ComparePropertyData pdNan pdNan).hasChanges = true
    ∧ (ComparePropertyData pdNan pdNan).propertyChanged = true := by
  decide

/-- C8 (amended): the diff is reflexive on every bundle whose float
fields are IEEE-equal to themselves and whose latitude/longitude admit
the tolerance check (finite latitude/longitude and non-NaN rating, in the
header and in every translation header); and the three changed-flags are
symmetric for ALL pairs of bundles (translation maps carrying Go's
distinct-key invariant). -/
theorem comparator_refl_symm :
    (∀ x : PropertyData, transKeysNodup x → bundleFloatsOk x = true →
        (ComparePropertyData x x).hasChanges = false)
    ∧ ∀ x y : PropertyData, transKeysNodup x → transKeysNodup y →
        (ComparePropertyData x y).propertyChanged =
            (ComparePropertyData y x).propertyChanged
        ∧ (ComparePropertyData x y).reviewsChanged =
            (ComparePropertyData y x).reviewsChanged
        ∧ (ComparePropertyData x y).translationsChanged =
            (ComparePropertyData y x).translationsChanged := by
  constructor
  · intro x hn hf
    simp only [bundleFloatsOk, Bool.and_eq_true, List.all_eq_true] at hf
    obtain ⟨hp, ht⟩ := hf
    simp [ComparePropertyData, PropertyChanges.hasChanges,
      compareProperty_self x.property hp, compareReviews_refl,
      compareTranslations_refl x.translations hn ht]
  · intro x y hx hy
    exact ⟨compareProperty_symm x.property y.property,
      compareReviews_symm x.reviews y.reviews,
      compareTranslations_symm x.translations y.translations hx hy⟩

/-- C8 (witness): reflexivity at a finite-float bundle and flag symmetry
at a concrete pair. -/
theorem comparator_refl_symm_witness :
    (ComparePropertyData pdC3 pdC3).hasChanges = false
    ∧ (ComparePropertyData pdC3 pdNan).propertyChanged =
        (ComparePropertyData pdNan pdC3).propertyChanged :=
  ⟨comparator_refl_symm.1 pdC3 List.nodup_nil (by decide),
    (comparator_refl_symm.2 pdC3 pdNan List.nodup_nil List.nodup_nil).1⟩

theorem transFold_spec (u : Upstream) :
    (translationLanguages.foldl
        (fun acc lang =>
          match u.translationResult lang with
          | .ok t => (mapInsert acc.1 lang t, acc.2 ++ [ApiCall.translationCall lang])
          | .error _ => (acc.1, acc.2 ++ [ApiCall.translationCall lang]))
        (([] : List (String × Property)), ([] : List ApiCall))) =
      ((match u.translationResult "fr" with
          | .ok t => [("fr", t)]
          | .error _ => []) ++
        (match u.translationResult "es" with
          | .ok t => [("es", t)]
          | .error _ => []),
        [ApiCall.translationCall "fr", ApiCall.translationCall "es"]) := by
  cases hfr : u.translationResult "fr" <;> cases hes : u.translationResult "es" <;>
    simp [translationLanguages, mapInsert, hfr, hes]

theorem mapLookup_transPair (u : Upstream) (lang : String) :
    mapLookup ((match u.translationResult "fr" with
        | .ok t => [("fr", t)]
        | .error _ => []) ++
      (match u.translationResult "es" with
        | .ok t => [("es", t)]
        | .error _ => [])) lang =
      (if lang = "fr" then (u.translationResult "fr").toOption
        else if lang = "es" then (u.translationResult "es").toOption
        else none) := by
  by_cases h1 : lang = "fr"
  · subst h1
    cases hfr : u.translationResult "fr" <;> cases hes : u.translationResult "es" <;>
      simp [mapLookup, List.find?, Except.toOption, hfr, hes]
  · by_cases h2 : lang = "es"
    · subst h2
      cases hfr : u.translationResult "fr" <;> cases hes : u.translationResult "es" <;>
        simp [mapLookup, List.find?, Except.toOption, hfr, hes]
    · have h1x : ¬ "fr" = lang := fun h => h1 h.symm
      have h2x : ¬ "es" = lang := fun h => h2 h.symm
      cases hfr : u.translationResult "fr" <;> cases hes : u.translationResult "es" <;>
        simp [mapLookup, List.find?, Except.toOption, hfr, hes, h1, h2, h1x, h2x]

/-- C9: the composed per-property fetch: it errors exactly when the
header fetch errors; with the header in hand, a non-positive reviewCount
skips the reviews endpoint entirely and yields empty reviews, a failed
reviews fetch yields empty reviews without failing the property, a
successful one yields the fetched slice; translations are attempted for
exactly the fixed languages fr and es, and the resulting map holds a
language exactly when its fetch succeeded. -/
theorem fetchAllPropertyData_contract (u : Upstream) :
    (exIsError (FetchAllPropertyData u).1 = exIsError u.propertyResult)
    ∧ ∀ p : Property, u.propertyResult = Except.ok p →
        ∃ pd : PropertyData, (FetchAllPropertyData u).1 = Except.ok pd
          ∧ pd.property = p
          ∧ (p.reviewCount ≤ 0 →
              pd.reviews = [] ∧
                ∀ n : Int, ApiCall.reviewsCall n ∉ (FetchAllPropertyData u).2)
          ∧ (0 < p.reviewCount →
              ∀ e, u.reviewsResult = Except.error e → pd.reviews = [])
          ∧ (0 < p.reviewCount →
              ∀ rs, u.reviewsResult = Except.ok rs → pd.reviews = rs)
          ∧ ((FetchAllPropertyData u).2.filterMap apiCallLang = ["fr", "es"])
          ∧ ∀ lang, mapLookup pd.translations lang =
              (if lang = "fr" then (u.translationResult "fr").toOption
                else if lang = "es" then (u.translationResult "es").toOption
                else none) := by
  constructor
  · cases hprop : u.propertyResult <;> simp [FetchAllPropertyData, hprop, exIsError]
  · intro p hp
    simp only [FetchAllPropertyData, hp, transFold_spec]
    refine ⟨_, rfl, rfl, ?_, ?_, ?_, ?_, ?_⟩
    · intro hle
      rw [if_neg (by omega)]
      refine ⟨rfl, fun n hmem => ?_⟩
      simp [apiCallLang] at hmem
    · intro hlt e her
      rw [if_pos hlt, her]
    · intro hlt rs hrs
      rw [if_pos hlt, hrs]
    · by_cases hlt : p.reviewCount > 0
      · rw [if_pos hlt]
        cases hrev : u.reviewsResult <;> simp [apiCallLang]
      · rw [if_neg hlt]
        simp [apiCallLang]
    · intro lang
      exact mapLookup_transPair u lang

/-- C9 (witness): the contract applied at `u0`: the call succeeds, the
reviews endpoint is not called (reviewCount 0), fr is omitted and es
present. -/
theorem fetchAllPropertyData_contract_witness :
    ∃ pd : PropertyData, (FetchAllPropertyData u0).1 = Except.ok pd
      ∧ pd.reviews = []
      ∧ mapLookup pd.translations "fr" = none
      ∧ mapLookup pd.translations "es" = some propC3 := by
  obtain ⟨pd, h1, _, h3, _, _, _, h7⟩ :=
    (fetchAllPropertyData_contract u0).2 prop0 rfl
  refine ⟨pd, h1, (h3 (by decide)).1, ?_, ?_⟩
  · have := h7 "fr"
    simpa [u0, Except.toOption] using this
  · have := h7 "es"
    simpa [u0, Except.toOption] using this

/-- C10: a status whose `LastSync` is the zero time is never overdue —
`IsSyncOverdue`'s guard requires a non-zero `LastSync` — and hence always
healthy, for every current instant, every parsed interval and every
`IsRunning` value. -/
theorem neverSynced_notOverdue_healthy (parse : String → Int) (now : Int)
    (ss : SyncStatus) (h : ss.lastSync = 0) :
    IsSyncOverdue parse now ss = false ∧ IsHealthy parse now ss = true := by
  have hov : IsSyncOverdue parse now ss = false := by
    unfold IsSyncOverdue
    rw [if_neg]
    simp [h]
  refine ⟨hov, ?_⟩
  unfold IsHealthy
  rw [hov]
  cases ss.isRunning <;> rfl

/-- C10 (witness): a stopped, never-synced service at an arbitrary
instant is reported healthy and not overdue. -/
theorem neverSynced_notOverdue_healthy_witness :
    IsSyncOverdue (fun _ => 43200000000000) 999999 ⟨false, 0, "12h"⟩ = false
    ∧ IsHealthy (fun _ => 43200000000000) 999999 ⟨false, 0, "12h"⟩ = true :=
  neverSynced_notOverdue_healthy (fun _ => 43200000000000) 999999 ⟨false, 0, "12h"⟩ rfl

/-- C1 (witness): the replace-semantics theorem applied at concrete
states: a non-empty bundle replaces the child rows, an empty one leaves
them untouched. -/
theorem storeProperty_replace_semantics_witness :
    ((storePropertyCommitted dbC1 pdW1).reviews.filter
        fun r => decide (r.propertyID = (1 : Int))) =
      pdW1.reviews.map (reviewRowOf 1)
    ∧ (storePropertyCommitted dbC1 pdC1).reviews = dbC1.reviews
    ∧ ((storePropertyCommitted dbC1 pdW1).translations.filter
        fun r => decide (r.propertyID = (1 : Int))) =
      pdW1.translations.map (translationRowOf 1)
    ∧ (storePropertyCommitted dbC1 pdC1).translations = dbC1.translations :=
  ⟨(storeProperty_replace_semantics dbC1 pdW1).1 (by decide),
    (storeProperty_replace_semantics dbC1 pdC1).2.1 rfl,
    (storeProperty_replace_semantics dbC1 pdW1).2.2.1 (by decide),
    (storeProperty_replace_semantics dbC1 pdC1).2.2.2 rfl⟩
